import Mathlib

/-!
Verification development for the equity research report generator
(`app.py`).  The analysis pipeline — indicator computation, signal
interpretation, scoring, highlight generation, peer aggregation and
report assembly — is shallowly embedded below.  Python floats are
modelled as exact rationals; `None`/`NaN` as `Option.none`; exceptions
as `Except` values.
-/

namespace EquityBot

/-- Python exceptions that the pipeline can raise and that are
distinguished by the calling route (`ValueError` specially, everything
else generically). -/
inductive PyError where
  | valueError (msg : String)
  | indexError
  | nameError (name : String)
  deriving DecidableEq, Repr

/-- Substring test: Python `needle in s` (over the character lists). -/
def listPrefixEq : List Char → List Char → Bool
  | [], _ => true
  | _ :: _, [] => false
  | a :: as, b :: bs => a == b && listPrefixEq as bs

def containsAux (needle : List Char) : List Char → Bool
  | [] => listPrefixEq needle []
  | c :: rest => listPrefixEq needle (c :: rest) || containsAux needle rest

/-- Python `needle in s` for strings. -/
def containsText (needle s : String) : Bool :=
  containsAux needle.data s.data

example : containsText "Bullish" "<b>Trend (SMA):</b> Bullish (Golden Cross)" = true := by decide

example : containsText "Bullish" "Technical data not available." = false := by decide

example : "stock\x27s" = "stock" ++ "\x27" ++ "s" := by decide

/-! ## Number formatting

Formatting of Python `f"{x:.2f}"` / `f"{x:,.0f}"`.  The tie-breaking of
the host float formatting (round half to even) is abstracted to the
rounding of `round : ℚ → ℤ`; no claim depends on tie values. -/

/-- Insert thousands separators into a reversed digit list. -/
def commaChunks : List Char → List Char
  | a :: b :: c :: d :: rest => a :: b :: c :: ',' :: commaChunks (d :: rest)
  | l => l

/-- Decimal digits of a natural number with thousands separators. -/
def fmtGrouped (n : Nat) : String :=
  String.mk (commaChunks (toString n).data.reverse).reverse

/-- Two-digit zero padding for the fractional part. -/
def pad2 (n : Nat) : String :=
  (if n < 10 then "0" else "") ++ toString n

/-- Round to the nearest integer, `⌊q + 1/2⌋`, computed on the
numerator and denominator so that it reduces in the kernel. -/
def pyRound (q : ℚ) : Int :=
  (2 * q.num + (q.den : Int)).fdiv (2 * (q.den : Int))

/-- Python `f"{q:.2f}"`. -/
def fmt2 (q : ℚ) : String :=
  let n : Int := pyRound (q * 100)
  (if n < 0 then "-" else "") ++ toString (n.natAbs / 100) ++ "." ++ pad2 (n.natAbs % 100)

/-- Python `f"{q:,.2f}"`. -/
def fmt2c (q : ℚ) : String :=
  let n : Int := pyRound (q * 100)
  (if n < 0 then "-" else "") ++ fmtGrouped (n.natAbs / 100) ++ "." ++ pad2 (n.natAbs % 100)

/-- Python `f"{q:,.0f}"`. -/
def fmt0c (q : ℚ) : String :=
  let n : Int := pyRound q
  (if n < 0 then "-" else "") ++ fmtGrouped n.natAbs

/-- Python `str` on a numeric field, used where the source interpolates a
raw number (`f"₹{price}"`).  Rendering of non-integral rationals is
abstracted to `a/b` form; no claim inspects these characters. -/
def pyNum (q : ℚ) : String :=
  if q.den = 1 then toString q.num
  else toString q.num ++ "/" ++ toString q.den

example : fmt0c (12345678 : ℚ) = "12,345,678" := by decide

example : fmt2 (14 / 10 : ℚ) = "1.40" := by with_unfolding_all decide

/-! ## Data model -/

/-- An entry of the `companyOfficers` list: a dict that may lack the
`name` or `title` key. -/
structure Officer where
  name : Option String
  title : Option String
  deriving DecidableEq, Repr

/-- A headline as assembled by `fetch_news_yfinance` (missing keys have
already been defaulted to `"N/A"` there). -/
structure News where
  title : String
  publisher : String
  deriving DecidableEq, Repr

/-- A pandas financial-statement frame: columns are period labels (most
recent first, pre-rendered from the timestamps), rows are line items
with one value per period. -/
structure Statement where
  columns : List String
  rows : List (String × List ℚ)
  deriving DecidableEq, Repr

/-- pandas `DataFrame.empty`: an axis of length zero. -/
def Statement.isEmpty (s : Statement) : Bool :=
  s.rows.isEmpty || s.columns.isEmpty

/-- `df.loc[item]` after `item in df.index`: first row with the label. -/
def lookupRow (rows : List (String × List ℚ)) (item : String) : Option (List ℚ) :=
  (rows.find? (fun r => r.1 == item)).map (fun r => r.2)

/-- The fields of `ticker.info` that the source reads. -/
structure YInfo where
  marketCap : Option ℚ
  longName : Option String
  shortName : Option String
  longBusinessSummary : Option String
  currentPrice : Option ℚ
  trailingPE : Option ℚ
  returnOnEquity : Option ℚ
  debtToEquity : Option ℚ
  dividendYield : Option ℚ
  companyOfficers : List Officer
  deriving DecidableEq, Repr

/-- What a `yf.Ticker` fetch yields: `info = none` models both a failed
fetch and an empty info dict (`if not info`), which the source treats
alike.  `logo` is the result of `fetch_logo` (external image fetch). -/
structure TickerData where
  info : Option YInfo
  financials : Option Statement
  balance_sheet : Option Statement
  quarterly_financials : Option Statement
  logo : Option Unit
  deriving DecidableEq, Repr

/-- The `data` dict built by `fetch_company_info`. -/
structure Fundamentals where
  logo_image : Option Unit
  financials : Option Statement
  balance_sheet : Option Statement
  quarterly_financials : Option Statement
  symbol : String
  companyName : String
  description : String
  marketCapStr : String
  currentPriceStr : String
  trailingPE : Option ℚ
  roe : Option ℚ
  debtToEquity : Option ℚ
  dividendYield : Option ℚ
  companyOfficers : List Officer
  deriving DecidableEq, Repr

/-- `fetch_company_info`: raises `ValueError` when the fetch fails, the
info dict is empty, or `marketCap` is missing; otherwise packages the
fundamentals.  The network fetch itself is the external collaborator:
its outcome is the `Option TickerData` argument. -/
def fetch_company_info (symbol : String) (fetched : Option TickerData) :
    Except PyError Fundamentals :=
  match fetched with
  | none => .error (.valueError ("Could not retrieve critical data for " ++ symbol ++ "."))
  | some td =>
    match td.info with
    | none => .error (.valueError ("Could not retrieve critical data for " ++ symbol ++ "."))
    | some info =>
      match info.marketCap with
      | none => .error (.valueError ("Could not retrieve critical data for " ++ symbol ++ "."))
      | some mc =>
        .ok { logo_image := td.logo
              financials := td.financials
              balance_sheet := td.balance_sheet
              quarterly_financials := td.quarterly_financials
              symbol := symbol
              companyName := info.longName.getD "N/A"
              description := info.longBusinessSummary.getD "N/A"
              marketCapStr := "₹" ++ fmt2c (mc / 10000000) ++ " Cr"
              currentPriceStr := "₹" ++ (match info.currentPrice with
                | some p => pyNum p
                | none => "N/A")
              trailingPE := info.trailingPE
              roe := info.returnOnEquity
              debtToEquity := info.debtToEquity
              dividendYield := info.dividendYield
              companyOfficers := info.companyOfficers }

/-! ## IndicatorEngine (`compute_technical_indicators`)

The price frame is modelled by its `Close` column (the only one the
source reads); an indicator value that pandas leaves as `NaN` is
`none`. -/

/-- One row of the indicator frame. -/
structure TechRow where
  close : Option ℚ
  sma_50 : Option ℚ
  sma_200 : Option ℚ
  bb_mid : Option ℚ
  bb_std : Option ℚ
  bb_upper : Option ℚ
  bb_lower : Option ℚ
  ema_12 : Option ℚ
  ema_26 : Option ℚ
  macd_line : Option ℚ
  macd_signal : Option ℚ
  macd_hist : Option ℚ
  rsi : Option ℚ
  deriving DecidableEq, Repr

/-- `Series.rolling(window=n)` at index `i`: the trailing `n` entries
ending at `i` (inclusive), defined only once `n` entries exist. -/
def rollingWindow (n : Nat) (xs : List ℚ) (i : Nat) : Option (List ℚ) :=
  if n ≤ i + 1 ∧ i < xs.length then some ((xs.take (i + 1)).drop (i + 1 - n)) else none

/-- `Series.rolling(window=n).mean()` at index `i`. -/
def rollingMean (n : Nat) (xs : List ℚ) (i : Nat) : Option ℚ :=
  (rollingWindow n xs i).map (fun w => w.sum / (n : ℚ))

/-- Sample variance (pandas `std` default, `ddof=1`). -/
def sampleVar (w : List ℚ) : ℚ :=
  let m := w.sum / (w.length : ℚ)
  (w.map (fun x => (x - m) ^ 2)).sum / ((w.length : ℚ) - 1)

/-- Rational stand-in for the irrational square root in the Bollinger
standard deviation: no theorem in this development depends on its
value, only on where it is defined. -/
def ratSqrt (q : ℚ) : ℚ :=
  (Nat.sqrt (q.num.toNat * q.den) : ℚ) / (q.den : ℚ)

/-- `Series.rolling(window=n).std()` at index `i`. -/
def rollingStd (n : Nat) (xs : List ℚ) (i : Nat) : Option ℚ :=
  (rollingWindow n xs i).map (fun w => ratSqrt (sampleVar w))

def emaFrom (a : ℚ) : ℚ → List ℚ → List ℚ
  | _, [] => []
  | prev, x :: rest =>
    let e := a * x + (1 - a) * prev
    e :: emaFrom a e rest

/-- pandas `ewm(span=s, adjust=False).mean()`: recursive smoothing with
α = 2/(s+1), seeded by the first value. -/
def emaList (span : Nat) (xs : List ℚ) : List ℚ :=
  match xs with
  | [] => []
  | x :: rest => x :: emaFrom (2 / ((span : ℚ) + 1)) x rest

def posPart (q : ℚ) : ℚ := max q 0

/-- `df['Close'].diff()`, with the leading `NaN` already coerced to `0`
the way `Series.where(delta > 0, 0)` does (`NaN > 0` is false). -/
def deltaList (xs : List ℚ) : List ℚ :=
  0 :: List.zipWith (fun prev cur => cur - prev) xs xs.tail

/-- `delta.where(delta > 0, 0)`. -/
def gains (xs : List ℚ) : List ℚ := (deltaList xs).map posPart

/-- `-delta.where(delta < 0, 0)`. -/
def losses (xs : List ℚ) : List ℚ := (deltaList xs).map (fun d => posPart (-d))

/-- Division that fails (`none`) on a zero divisor, the way float
division by zero produces a non-number. -/
def safeDiv (a b : ℚ) : Option ℚ :=
  if b = 0 then none else some (a / b)

/-- `loss.rolling(14).mean()` then `.replace(0, 1e-9)` at index `i`. -/
def lossReplaced (xs : List ℚ) (i : Nat) : Option ℚ :=
  (rollingMean 14 (losses xs) i).map (fun l => if l = 0 then 1 / 1000000000 else l)

/-- The `rsi` column at index `i`: `100 - 100/(1 + gain/loss)`. -/
def rsiAt (xs : List ℚ) (i : Nat) : Option ℚ := do
  let g ← rollingMean 14 (gains xs) i
  let lr ← lossReplaced xs i
  let rs ← safeDiv g lr
  let d ← safeDiv 100 (1 + rs)
  pure (100 - d)

/-- `macd_line = ema_12 - ema_26`. -/
def macdLineList (xs : List ℚ) : List ℚ :=
  List.zipWith (fun a b => a - b) (emaList 12 xs) (emaList 26 xs)

/-- One assembled row of the frame returned by
`compute_technical_indicators`. -/
def techRow (closes : List ℚ) (i : Nat) : TechRow :=
  { close := closes[i]?
    sma_50 := rollingMean 50 closes i
    sma_200 := rollingMean 200 closes i
    bb_mid := rollingMean 20 closes i
    bb_std := rollingStd 20 closes i
    bb_upper := do
      let m ← rollingMean 20 closes i
      let s ← rollingStd 20 closes i
      pure (m + 2 * s)
    bb_lower := do
      let m ← rollingMean 20 closes i
      let s ← rollingStd 20 closes i
      pure (m - 2 * s)
    ema_12 := (emaList 12 closes)[i]?
    ema_26 := (emaList 26 closes)[i]?
    macd_line := (macdLineList closes)[i]?
    macd_signal := (emaList 9 (macdLineList closes))[i]?
    macd_hist := do
      let l ← (macdLineList closes)[i]?
      let s ← (emaList 9 (macdLineList closes))[i]?
      pure (l - s)
    rsi := rsiAt closes i }

/-- `compute_technical_indicators`: `None` in, `None` out; otherwise
one indicator row per price bar. -/
def compute_technical_indicators (df : Option (List ℚ)) : Option (List TechRow) :=
  df.map (fun closes => (List.range closes.length).map (techRow closes))

/-! ## Interpreter (`interpret_technical`) -/

def interpret_technical (df : Option (List TechRow)) : List String :=
  match df with
  | none => ["Technical data not available."]
  | some rows =>
    match rows.getLast? with
    | none => ["Technical data not available."]
    | some latest =>
      let a0 : List String := []
      let a1 := match latest.sma_50, latest.sma_200 with
        | some sma50, some sma200 =>
          a0 ++ ["<b>Trend (SMA):</b> " ++
            (if sma50 > sma200 then "Bullish (Golden Cross)" else "Bearish (Death Cross)")]
        | _, _ => a0
      let a2 := match latest.bb_upper, latest.close with
        | some bbUpper, some closePrice =>
          a1 ++ ["<b>Volatility (Bollinger):</b> " ++
            (if closePrice > bbUpper then "High (Price above upper band)" else "Normal")]
        | _, _ => a1
      let a3 := match latest.macd_line, latest.macd_signal with
        | some line, some sig =>
          a2 ++ ["<b>Momentum (MACD):</b> " ++
            (if line > sig then "Positive (MACD above signal)" else "Negative (MACD below signal)")]
        | _, _ => a2
      let a4 := match latest.rsi with
        | some r =>
          a3 ++ ["<b>Strength (RSI):</b> " ++
            (if r > 70 then "Overbought" else if r < 30 then "Oversold" else "Neutral") ++
            " at " ++ fmt2 r]
        | none => a3
      a4

/-! ## Scorer (`generate_recommendation`) -/

/-- The composite score: each `score += 1` / `score -= 1` of the source
rendered as one summand. -/
def recScore (fundamentals : Fundamentals) (tech_analysis : List String) : Int :=
  (match fundamentals.roe with
    | some roe => if roe > 3 / 20 then 1 else 0
    | none => 0)
  + (match fundamentals.trailingPE with
    | some pe => if pe < 30 then 1 else 0
    | none => 0)
  + (match fundamentals.debtToEquity with
    | some de => if de < 150 then 1 else 0
    | none => 0)
  + (if tech_analysis.any (fun s => containsText "Bullish" s) then 1 else 0)
  - (if tech_analysis.any (fun s => containsText "Overbought" s) then 1 else 0)

def generate_recommendation (fundamentals : Fundamentals) (tech_analysis : List String) : String :=
  let score := recScore fundamentals tech_analysis
  if score ≥ 3 then "BUY"
  else if score ≥ 1 then "HOLD"
  else "SELL"

/-! ## HighlightGenerator (`generate_key_highlights`) -/

/-- The always-present first bullet. -/
def recBulletText (r : String) : String :=
  "<b>Overall Recommendation:</b> Based on a composite analysis, the current recommendation is to <b>"
    ++ r ++ "</b>."

def generate_key_highlights (fundamentals : Fundamentals) (tech_analysis : List String) :
    List String :=
  let r := generate_recommendation fundamentals tech_analysis
  let h0 := [recBulletText r]
  let h1 := match fundamentals.trailingPE with
    | some pe =>
      h0 ++ ["<b>Valuation:</b> The stock\x27s P/E ratio of " ++ fmt2 pe ++ " suggests a " ++
        (if 15 ≤ pe ∧ pe ≤ 30 then "fair"
         else if pe > 30 then "potentially high"
         else "potentially low") ++ " valuation."]
    | none => h0
  let h2 :=
    if tech_analysis.any (fun s => containsText "Bullish" s) then
      h1 ++ ["<b>Technical Trend:</b> The stock is showing bullish long-term trend signals."]
    else if tech_analysis.any (fun s => containsText "Bearish" s) then
      h1 ++ ["<b>Technical Trend:</b> The stock is showing bearish long-term trend signals."]
    else h1
  let h3 := match fundamentals.roe with
    | some roe =>
      h2 ++ ["<b>Company Performance:</b> With a Return on Equity of " ++ fmt2 (roe * 100) ++
        "%, the company shows " ++ (if roe > 3 / 20 then "strong" else "moderate") ++
        " profitability."]
    | none => h2
  h3

/-! ## PeerAggregator (`get_peer_comparison`) -/

structure PeerRow where
  name : String
  pe : Option ℚ
  roe : Option ℚ
  deriving DecidableEq, Repr

/-- The dict appended for one successfully fetched peer. -/
def peerRowOf (peer_symbol : String) (info : YInfo) : PeerRow :=
  { name := info.shortName.getD peer_symbol
    pe := info.trailingPE
    roe := info.returnOnEquity }

/-- The peer loop: a failed lookup (`except Exception: continue`) is
skipped, the rest of the list is still processed.  The per-peer fetch
is the external collaborator `fetchPeer`. -/
def get_peer_comparison (fetchPeer : String → Option YInfo) : List String → List PeerRow
  | [] => []
  | p :: rest =>
    match fetchPeer p with
    | some info => peerRowOf p info :: get_peer_comparison fetchPeer rest
    | none => get_peer_comparison fetchPeer rest

/-- The source's `PEER_MAPPING` table. -/
def PEER_MAPPING : List (String × List String) :=
  [("HDFCBANK.NS", ["ICICIBANK.NS", "SBIN.NS", "AXISBANK.NS", "KOTAKBANK.NS"]),
   ("ICICIBANK.NS", ["HDFCBANK.NS", "AXISBANK.NS", "KOTAKBANK.NS", "SBIN.NS"]),
   ("SBIN.NS", ["HDFCBANK.NS", "ICICIBANK.NS", "PNB.NS", "BANKBARODA.NS"]),
   ("INFY.NS", ["TCS.NS", "WIPRO.NS", "TECHM.NS", "HCLTECH.NS"]),
   ("TCS.NS", ["INFY.NS", "WIPRO.NS", "HCLTECH.NS", "TECHM.NS"]),
   ("RELIANCE.NS", ["ONGC.NS", "TATAPOWER.NS", "ADANIPOWER.NS"]),
   ("TATAMOTORS.NS", ["MARUTI.NS", "M&M.NS", "EICHERMOT.NS"])]

/-! ## ReportAssembler (`ReportPDF.create_pdf`)

The reportlab story is modelled as a list of flowables; typography
(styles, widths, colors) lives in the external rendering collaborator
and is not part of a flowable here.  The generation date on the cover
(wall clock) and the raster content of the chart image are elided:
only their presence is modelled.

A load-bearing fact about the source: line 177 reads
`alignment=TA_RIGHT`, but line 16 imports only `TA_CENTER` and
`TA_JUSTIFY` from `reportlab.lib.enums`, and `TA_RIGHT` is bound
nowhere else in the module.  Python resolves the name at run time, so
every `create_pdf` call raises `NameError` there — right after the
cover section — and lines 178-260 (summary header row, highlights,
management, financial tables, chart, peers, news, disclaimer) are
dead code.  The section builders below embed that dead code as it is
written; `create_pdf` itself aborts where the program does. -/

inductive Item where
  | spacer
  | pageBreak
  | image
  | para (text : String)
  | table (data : List (List String))
  deriving DecidableEq, Repr

/-- Cover page flowables (source lines 168-174). -/
def coverItems (fundamentals : Fundamentals) : List Item :=
  [Item.spacer] ++
  (match fundamentals.logo_image with
    | some _ => [Item.image]
    | none => []) ++
  [Item.spacer, Item.para "Saketh Equity Research", Item.spacer,
   Item.para "Professional Equity Report For:",
   Item.para fundamentals.companyName, Item.spacer,
   Item.para "Report Generated:"]

/-- The left cell of the summary header table (part of the dead line
178). -/
def headerLeftCell (fundamentals : Fundamentals) : String :=
  "<b>Live Price:</b> " ++ fundamentals.currentPriceStr ++
    "<br/><b>Market Cap:</b> " ++ fundamentals.marketCapStr

/-- The header row that lines 178-179 would append — dead code, never
executed. -/
def summaryHeaderRow (fundamentals : Fundamentals) (recommendation : String) : List Item :=
  [Item.table [[headerLeftCell fundamentals, recommendation]], Item.spacer]

/-- Summary header (source lines 176-180): line 176 picks the tier
color, then line 177 evaluates `TA_RIGHT` — a name the module never
imports (line 16 brings in only `TA_CENTER` and `TA_JUSTIFY`) or
defines — so this raises `NameError` on every execution and the header
row of lines 178-179 is never built. -/
def summaryHeaderItems (fundamentals : Fundamentals) (recommendation : String) :
    Except PyError (List Item) :=
  .error (.nameError "TA_RIGHT")

/-- Key highlights section (source lines 182-184). -/
def highlightsItems (key_highlights : List String) : List Item :=
  [Item.para "Key Report Highlights"] ++
  key_highlights.map (fun point => Item.para ("• " ++ point)) ++
  [Item.spacer]

/-- Company overview section (source lines 186-188). -/
def overviewItems (fundamentals : Fundamentals) : List Item :=
  [Item.para "Company Overview",
   Item.para (if fundamentals.description = "" then "No company overview available."
              else fundamentals.description),
   Item.spacer]

/-- The bullet for one well-formed officer entry. -/
def officerLine (o : Officer) : Option Item :=
  match o.name, o.title with
  | some n, some t => some (Item.para ("• <b>" ++ n ++ "</b>, <i>" ++ t ++ "</i>"))
  | _, _ => none

/-- Body of the management section: `if officers:` loops over the first
five entries, skipping entries without both keys; only a falsy (empty)
list yields the placeholder (source lines 191-195). -/
def managementBody (officers : List Officer) : List Item :=
  if officers.isEmpty then [Item.para "Managerial data could not be retrieved."]
  else (officers.take 5).filterMap officerLine

def managementItems (officers : List Officer) : List Item :=
  Item.para "Key Managerial Personnel" :: managementBody officers

/-- Python `list[k]`, raising `IndexError` past the end. -/
def pyIndex {α : Type} (xs : List α) (k : Nat) : Except PyError α :=
  match xs[k]? with
  | some x => .ok x
  | none => .error .indexError

def fin_items : List String :=
  ["Total Revenue", "Net Income", "Total Assets", "Total Liabilities Net Minority Interest"]

/-- Annual financial summary (source lines 198-207): the header row
indexes `financials.columns[0..2]` unconditionally; row values are
truncated with `.iloc[:3]`. -/
def annualBody (financials balance_sheet : Option Statement) : Except PyError (List Item) :=
  match financials, balance_sheet with
  | some fin, some bs =>
    if fin.isEmpty || bs.isEmpty then
      pure [Item.para "Annual financial data not available."]
    else do
      let c0 ← pyIndex fin.columns 0
      let c1 ← pyIndex fin.columns 1
      let c2 ← pyIndex fin.columns 2
      let all_fins := fin.rows ++ bs.rows
      let fin_data := ["Metric", c0, c1, c2] ::
        fin_items.filterMap (fun item =>
          (lookupRow all_fins item).map (fun vals =>
            item :: (vals.take 3).map (fun val => fmt0c (val / 10000000))))
      pure [Item.table fin_data]
  | _, _ => pure [Item.para "Annual financial data not available."]

def annualItems (financials balance_sheet : Option Statement) : Except PyError (List Item) := do
  let body ← annualBody financials balance_sheet
  pure (Item.para "Financial Summary (Annual, in ₹ Cr)" :: body)

def q_items : List String := ["Total Revenue", "Net Income"]

/-- Quarterly performance (source lines 210-218): the header row indexes
`q_financials.columns[0..3]` unconditionally; each data row carries the
full `loc[item]` (no truncation). -/
def quarterlyBody (q_financials : Option Statement) : Except PyError (List Item) :=
  match q_financials with
  | some q =>
    if q.isEmpty then
      pure [Item.para "Quarterly performance data not available."]
    else do
      let c0 ← pyIndex q.columns 0
      let c1 ← pyIndex q.columns 1
      let c2 ← pyIndex q.columns 2
      let c3 ← pyIndex q.columns 3
      let q_data := ["Metric", c0, c1, c2, c3] ::
        q_items.filterMap (fun item =>
          (lookupRow q.rows item).map (fun vals =>
            item :: vals.map (fun val => fmt0c (val / 10000000))))
      pure [Item.table q_data]
  | none => pure [Item.para "Quarterly performance data not available."]

def quarterlyItems (q_financials : Option Statement) : Except PyError (List Item) := do
  let body ← quarterlyBody q_financials
  pure (Item.para "Quarterly Performance (in ₹ Cr)" :: body)

/-- `"<br/>".join(...)` over the signal bullets. -/
def joinSep (sep : String) : List String → String
  | [] => ""
  | [s] => s
  | s :: rest => s ++ sep ++ joinSep sep rest

def techSummaryText (tech_analysis : List String) : String :=
  joinSep "<br/>" (tech_analysis.map (fun item => "• " ++ item))

/-- Body of the chart section (source lines 222-241).  The whole plot
construction sits in a `try`: with `price_df = None` the very first
attribute access raises, and any failure of the external matplotlib
rendering (modelled by `chartOk = false`) is caught the same way;
either way the body degrades to the plain-text notice. -/
def chartBody (price_df : Option (List TechRow)) (tech_analysis : List String)
    (chartOk : Bool) : List Item :=
  match price_df with
  | none => [Item.para "<b>Could not generate charts due to a technical error.</b>"]
  | some _ =>
    if chartOk then [Item.table [["(chart)", techSummaryText tech_analysis]]]
    else [Item.para "<b>Could not generate charts due to a technical error.</b>"]

def chartItems (price_df : Option (List TechRow)) (tech_analysis : List String)
    (chartOk : Bool) : List Item :=
  Item.para "Technical Charts & Analysis" :: chartBody price_df tech_analysis chartOk

/-- Body of the peer comparison section (source lines 245-249). -/
def peerBody (peer_df : List PeerRow) : List Item :=
  if peer_df.isEmpty then
    [Item.para "Peer comparison data could not be retrieved."]
  else
    [Item.table (["Company", "P/E Ratio", "ROE"] ::
      peer_df.map (fun row =>
        [row.name,
         (match row.pe with | some p => fmt2 p | none => "N/A"),
         (match row.roe with | some r => fmt2 (r * 100) ++ "%" | none => "N/A")]))]

def peerItems (peer_df : List PeerRow) : List Item :=
  Item.para "Peer Comparison" :: peerBody peer_df

/-- News section (source lines 252-255). -/
def newsBody (news : List News) : List Item :=
  if news.isEmpty then [Item.para "Recent news could not be fetched at this time."]
  else news.map (fun n => Item.para ("• <b>" ++ n.title ++ "</b> <i>(" ++ n.publisher ++ ")</i>"))

def newsItems (news : List News) : List Item :=
  Item.para "Recent News" :: newsBody news

def disclaimer_text : String :=
  "This report is for informational and educational purposes only and does not constitute a recommendation to buy or sell any security. The information contained herein has been obtained from sources believed to be reliable, but its accuracy and completeness are not guaranteed. Saketh Equity Research is not a registered investment advisor. All investment decisions should be made with the help of a qualified financial professional. Past performance is not indicative of future results."

def disclaimerItems : List Item :=
  [Item.spacer, Item.para "Disclaimer", Item.para disclaimer_text]

namespace ReportPDF

/-- `ReportPDF.create_pdf`: the cover section (lines 168-174) is built,
and line 177 then raises `NameError` on the unbound `TA_RIGHT`, so
every call aborts here and the remaining sections are dead code.  The
dead continuation is kept in the source's section order, including the
two financial-table header constructions that would raise `IndexError`
on statements shorter than the displayed period count. -/
def create_pdf (fundamentals : Fundamentals) (price_df : Option (List TechRow))
    (news : List News) (peer_df : List PeerRow) (tech_analysis : List String)
    (recommendation : String) (key_highlights : List String) (chartOk : Bool) :
    Except PyError (List Item) :=
  match summaryHeaderItems fundamentals recommendation with
  | .error e => .error e
  | .ok header =>
  match annualItems fundamentals.financials fundamentals.balance_sheet with
  | .error e => .error e
  | .ok annual =>
  match quarterlyItems fundamentals.quarterly_financials with
  | .error e => .error e
  | .ok quarterly =>
  .ok (coverItems fundamentals ++ [Item.pageBreak] ++
    header ++
    highlightsItems key_highlights ++
    overviewItems fundamentals ++
    managementItems fundamentals.companyOfficers ++ [Item.pageBreak] ++
    annual ++ [Item.spacer] ++
    quarterly ++ [Item.pageBreak] ++
    chartItems price_df tech_analysis chartOk ++ [Item.spacer] ++
    peerItems peer_df ++ [Item.pageBreak] ++
    newsItems news ++
    disclaimerItems)

end ReportPDF

/-! ## Main workflow (`create_report`) and the `/generate` route -/

/-- `fetch_price`: the external download, `None` when the frame is
empty.  The fetched history is the `closes` argument. -/
def fetch_price (closes : List ℚ) : Option (List ℚ) :=
  if closes.isEmpty then none else some closes

/-- `create_report`: the full pipeline.  External collaborator
outcomes are arguments: the ticker fetch, the price history, the
per-peer fetch, the news list and the chart rendering outcome.  The
analysis stages (lines 273-282) run to completion; the assembly stage
then raises the line-177 `NameError` on every call, so the result is
an error for every input (`valueError` when the fundamentals fetch
fails, `nameError` otherwise). -/
def create_report (symbol : String) (fetched : Option TickerData) (closes : List ℚ)
    (fetchPeer : String → Option YInfo) (news : List News) (chartOk : Bool) :
    Except PyError (List Item) := do
  let fundamentals ← fetch_company_info symbol fetched
  let price_df := fetch_price closes
  let price_df_tech := compute_technical_indicators price_df
  let tech_analysis := interpret_technical price_df_tech
  let recommendation := generate_recommendation fundamentals tech_analysis
  let key_highlights := generate_key_highlights fundamentals tech_analysis
  let peers := ((PEER_MAPPING.find? (fun e => e.1 == symbol)).map (fun e => e.2)).getD []
  let peer_df := get_peer_comparison fetchPeer peers
  ReportPDF.create_pdf fundamentals price_df_tech news peer_df tech_analysis recommendation
    key_highlights chartOk

/-- What the `/generate` route sends back: a download URL on success,
or an HTTP status and message. -/
inductive RouteResult where
  | success
  | err (code : Nat) (msg : String)
  deriving DecidableEq, Repr

/-- The `/generate` route: `ValueError` (the DataUnavailable case) is
surfaced as the retryable 400 message; any other exception (the
`NameError` every assembly hits, or an `IndexError`) becomes the
opaque 500 message. -/
def generateRoute (stock_ticker : String) (fetched : Option TickerData) (closes : List ℚ)
    (fetchPeer : String → Option YInfo) (news : List News) (chartOk : Bool) : RouteResult :=
  match create_report stock_ticker fetched closes fetchPeer news chartOk with
  | .ok _ => .success
  | .error (.valueError _) =>
    .err 400 ("The data source is currently busy or unavailable for " ++ stock_ticker ++
      ". This can happen with free APIs. Please wait 30 seconds and try again.")
  | .error _ =>
    .err 500 "An internal server error occurred. Please check the logs."

/-! ## Spec-side definitions

These follow the specification's words, to be compared against the
source-side definitions above. -/

/-- Spec-side tier map, in the spec's bracket form: score ≥ 3 → BUY;
1 ≤ score ≤ 2 → HOLD; score ≤ 0 → SELL (the three brackets exhaust ℤ,
so the last is the default). -/
def specTier (score : Int) : String :=
  if score ≥ 3 then "BUY"
  else if 1 ≤ score ∧ score ≤ 2 then "HOLD"
  else "SELL"

/-- Spec-side Trend rule: emitted only when both compared values are
defined. -/
def specTrendSignal (latest : TechRow) : Option String :=
  match latest.sma_50, latest.sma_200 with
  | some sma50, some sma200 =>
    some ("<b>Trend (SMA):</b> " ++
      (if sma50 > sma200 then "Bullish (Golden Cross)" else "Bearish (Death Cross)"))
  | _, _ => none

/-- Spec-side Volatility rule: emitted only when both compared values
are defined. -/
def specVolatilitySignal (latest : TechRow) : Option String :=
  match latest.bb_upper, latest.close with
  | some bbUpper, some closePrice =>
    some ("<b>Volatility (Bollinger):</b> " ++
      (if closePrice > bbUpper then "High (Price above upper band)" else "Normal"))
  | _, _ => none

/-- Spec-side Momentum rule: emitted only when both compared values are
defined. -/
def specMomentumSignal (latest : TechRow) : Option String :=
  match latest.macd_line, latest.macd_signal with
  | some line, some sig =>
    some ("<b>Momentum (MACD):</b> " ++
      (if line > sig then "Positive (MACD above signal)" else "Negative (MACD below signal)"))
  | _, _ => none

/-- Spec-side Strength rule: emitted only when the RSI is defined,
always carrying the RSI value formatted to two decimals. -/
def specStrengthSignal (latest : TechRow) : Option String :=
  match latest.rsi with
  | some r =>
    some ("<b>Strength (RSI):</b> " ++
      (if r > 70 then "Overbought" else if r < 30 then "Oversold" else "Neutral") ++
      " at " ++ fmt2 r)
  | none => none

/-- What the RSI claim asserts of a defined entry: the value exists (no
division failure), lies in [0,100], the epsilon is substituted exactly
when the loss-average is zero, and an all-non-negative delta window
forces a zero loss-average. -/
def RsiWellBehaved (closes : List ℚ) (i : Nat) : Prop :=
  ∃ r, rsiAt closes i = some r ∧ 0 ≤ r ∧ r ≤ 100 ∧
    (rollingMean 14 (losses closes) i = some 0 →
      lossReplaced closes i = some (1 / 1000000000)) ∧
    (∀ w, rollingWindow 14 (deltaList closes) i = some w → (∀ d ∈ w, 0 ≤ d) →
      rollingMean 14 (losses closes) i = some 0)

/-! ### Concrete instances used to evaluate the embedding -/

/-- A plain fundamentals record for concrete evaluations. -/
def sampleFund : Fundamentals :=
  { logo_image := none
    financials := none
    balance_sheet := none
    quarterly_financials := none
    symbol := "TEST.NS"
    companyName := "Test Co"
    description := "A test company."
    marketCapStr := "₹2.00 Cr"
    currentPriceStr := "₹100"
    trailingPE := some 20
    roe := some (1 / 5)
    debtToEquity := some 80
    dividendYield := none
    companyOfficers := [] }

/-- A fully well-formed ticker fetch (three annual and four quarterly
periods). -/
def goodTicker : TickerData :=
  { info := some
      { marketCap := some 20000000
        longName := some "Good Co"
        shortName := some "Good"
        longBusinessSummary := some "A test company."
        currentPrice := some 100
        trailingPE := some 20
        returnOnEquity := some (1 / 5)
        debtToEquity := some 80
        dividendYield := none
        companyOfficers := [⟨some "A. Person", some "Chief Executive Officer"⟩] }
    financials := some ⟨["2024", "2023", "2022"], [("Total Revenue", [30000000, 20000000, 10000000])]⟩
    balance_sheet := some ⟨["2024", "2023", "2022"], [("Total Assets", [30000000, 20000000, 10000000])]⟩
    quarterly_financials := some ⟨["Jun 2025", "Mar 2025", "Dec 2024", "Sep 2024"],
      [("Total Revenue", [40000000, 30000000, 20000000, 10000000])]⟩
    logo := none }

/-- The fundamentals `fetch_company_info` packages for `goodTicker`. -/
def goodFund : Fundamentals :=
  match fetch_company_info "TEST.NS" (some goodTicker) with
  | .ok f => f
  | .error _ => sampleFund

/-! ## Theorems -/

/-- C1: for every fundamentals mapping and signal list the
recommendation tier is a pure function of the integer score, agreeing
with the spec's exhaustive brackets (score ≥ 3 → BUY, 1 ≤ score ≤ 2 →
HOLD, score ≤ 0 → SELL, no other bands), and in particular score 3 ↦
BUY, 1 ↦ HOLD, 0 ↦ SELL, -1 ↦ SELL. -/
theorem recommendation_tier_of_score (fundamentals : Fundamentals)
    (tech_analysis : List String) :
    generate_recommendation fundamentals tech_analysis =
      specTier (recScore fundamentals tech_analysis) ∧
    specTier 3 = "BUY" ∧ specTier 1 = "HOLD" ∧ specTier 0 = "SELL" ∧
    specTier (-1) = "SELL" := by
  have h : ∀ s : Int, (if s ≥ 3 then "BUY" else if s ≥ 1 then "HOLD" else "SELL") =
      specTier s := by
    intro s
    unfold specTier
    split_ifs <;> first | rfl | omega
  refine ⟨h (recScore fundamentals tech_analysis), by decide, by decide, by decide, by decide⟩

/-- C3: holding all other inputs fixed, the score is monotonically
non-decreasing in ROE and non-increasing in P/E and debt-to-equity;
ROE exactly 0.15 and P/E exactly 30 award no point (the score equals
the one with the fundamental absent). -/
theorem score_monotone_boundaries (fundamentals : Fundamentals)
    (tech_analysis : List String) :
    (∀ r1 r2 : ℚ, r1 ≤ r2 →
      recScore { fundamentals with roe := some r1 } tech_analysis ≤
        recScore { fundamentals with roe := some r2 } tech_analysis) ∧
    (∀ p1 p2 : ℚ, p1 ≤ p2 →
      recScore { fundamentals with trailingPE := some p2 } tech_analysis ≤
        recScore { fundamentals with trailingPE := some p1 } tech_analysis) ∧
    (∀ d1 d2 : ℚ, d1 ≤ d2 →
      recScore { fundamentals with debtToEquity := some d2 } tech_analysis ≤
        recScore { fundamentals with debtToEquity := some d1 } tech_analysis) ∧
    recScore { fundamentals with roe := some (3 / 20) } tech_analysis =
      recScore { fundamentals with roe := none } tech_analysis ∧
    recScore { fundamentals with trailingPE := some 30 } tech_analysis =
      recScore { fundamentals with trailingPE := none } tech_analysis := by
  refine ⟨?_, ?_, ?_, ?_, ?_⟩
  · intro r1 r2 h12
    simp only [recScore]
    have key : (if r1 > 3 / 20 then (1 : Int) else 0) ≤ (if r2 > 3 / 20 then 1 else 0) := by
      split_ifs with h1 h2
      · exact le_refl 1
      · exact absurd (lt_of_lt_of_le h1 h12) h2
      · exact Int.zero_le_ofNat 1
      · exact le_refl 0
    linarith [key]
  · intro p1 p2 h12
    simp only [recScore]
    have key : (if p2 < 30 then (1 : Int) else 0) ≤ (if p1 < 30 then 1 else 0) := by
      split_ifs with h1 h2
      · exact le_refl 1
      · exact absurd (lt_of_le_of_lt h12 h1) h2
      · exact Int.zero_le_ofNat 1
      · exact le_refl 0
    linarith [key]
  · intro d1 d2 h12
    simp only [recScore]
    have key : (if d2 < 150 then (1 : Int) else 0) ≤ (if d1 < 150 then 1 else 0) := by
      split_ifs with h1 h2
      · exact le_refl 1
      · exact absurd (lt_of_le_of_lt h12 h1) h2
      · exact Int.zero_le_ofNat 1
      · exact le_refl 0
    linarith [key]
  · simp only [recScore]
    norm_num
  · simp only [recScore]
    norm_num

/-- Witness for C3 at a concrete fundamentals record and concrete
ROE values. -/
theorem score_monotone_boundaries_w :
    recScore { sampleFund with roe := some 0 } [] ≤
      recScore { sampleFund with roe := some 1 } [] :=
  (score_monotone_boundaries sampleFund []).1 0 1 (by norm_num)

/-- C9: for a series shorter than 200 bars `sma_200` is `none` at every
index; in any series it is `none` before index 199; from index 199 on
(bar 200, 1-indexed) it is the mean of the trailing 200 closes,
inclusive of the current bar. -/
theorem sma200_window (closes : List ℚ) :
    (closes.length < 200 → ∀ i, rollingMean 200 closes i = none) ∧
    (∀ i, i < 199 → rollingMean 200 closes i = none) ∧
    (∀ i, 199 ≤ i → i < closes.length →
      (techRow closes i).sma_200 =
        some (((closes.drop (i + 1 - 200)).take 200).sum / 200)) := by
  refine ⟨?_, ?_, ?_⟩
  · intro hshort i
    simp only [rollingMean, rollingWindow]
    rw [if_neg (by omega)]
    rfl
  · intro i hi
    simp only [rollingMean, rollingWindow]
    rw [if_neg (by omega)]
    rfl
  · intro i h199 hlen
    show rollingMean 200 closes i = _
    simp only [rollingMean, rollingWindow]
    rw [if_pos ⟨by omega, hlen⟩]
    show some (((closes.take (i + 1)).drop (i + 1 - 200)).sum / ((200 : Nat) : ℚ)) = _
    rw [List.drop_take]
    have harith : i + 1 - (i + 1 - 200) = 200 := by omega
    rw [harith]
    norm_num

set_option maxRecDepth 4000 in
/-- Witness for C9: a 1-bar series has no `sma_200` anywhere, and a
200-bar constant series has it at index 199. -/
theorem sma200_window_w :
    rollingMean 200 [(1 : ℚ)] 0 = none ∧
    (techRow (List.replicate 200 (1 : ℚ)) 199).sma_200 =
      some ((((List.replicate 200 (1 : ℚ)).drop (199 + 1 - 200)).take 200).sum / 200) :=
  ⟨(sma200_window [1]).1 (by decide) 0,
   (sma200_window (List.replicate 200 1)).2.2 199 (by decide) (by decide)⟩

lemma rollingWindow_map (f : ℚ → ℚ) (n : Nat) (xs : List ℚ) (i : Nat) :
    rollingWindow n (xs.map f) i = (rollingWindow n xs i).map (List.map f) := by
  simp only [rollingWindow, List.length_map]
  split
  · simp [← List.map_take, ← List.map_drop]
  · rfl

lemma rollingWindow_subset {n i : Nat} {xs w : List ℚ}
    (hw : rollingWindow n xs i = some w) : ∀ x ∈ w, x ∈ xs := by
  intro x hx
  simp only [rollingWindow] at hw
  split at hw
  · cases hw
    exact List.mem_of_mem_take (List.mem_of_mem_drop hx)
  · exact absurd hw (by simp)

lemma gains_nonneg (xs : List ℚ) : ∀ x ∈ gains xs, 0 ≤ x := by
  intro x hx
  simp only [gains, List.mem_map] at hx
  obtain ⟨d, _, rfl⟩ := hx
  exact le_max_right d 0

lemma losses_nonneg (xs : List ℚ) : ∀ x ∈ losses xs, 0 ≤ x := by
  intro x hx
  simp only [losses, List.mem_map] at hx
  obtain ⟨d, _, rfl⟩ := hx
  exact le_max_right (-d) 0

lemma deltaList_length (xs : List ℚ) (h : xs ≠ []) :
    (deltaList xs).length = xs.length := by
  cases xs with
  | nil => exact absurd rfl h
  | cons c rest => simp [deltaList, List.length_zipWith]

/-- C4: wherever the 14-bar windows exist, the RSI is defined (no
division failure), lies in [0,100], substitutes the positive epsilon
exactly when the loss-average is zero, and an all-non-negative delta
window forces that zero loss-average. -/
theorem rsi_in_range (closes : List ℚ) (i : Nat) (h13 : 13 ≤ i)
    (hlen : i < closes.length) : RsiWellBehaved closes i := by
  have hne : closes ≠ [] := by
    intro h
    subst h
    simp at hlen
  have hdlen := deltaList_length closes hne
  have hglen : (gains closes).length = closes.length := by
    simp [gains, hdlen]
  have hllen : (losses closes).length = closes.length := by
    simp [losses, hdlen]
  obtain ⟨wg, hgw⟩ : ∃ wg, rollingWindow 14 (gains closes) i = some wg := by
    simp only [rollingWindow, hglen]
    rw [if_pos ⟨by omega, hlen⟩]
    exact ⟨_, rfl⟩
  obtain ⟨wl, hlw⟩ : ∃ wl, rollingWindow 14 (losses closes) i = some wl := by
    simp only [rollingWindow, hllen]
    rw [if_pos ⟨by omega, hlen⟩]
    exact ⟨_, rfl⟩
  have hGdef : rollingMean 14 (gains closes) i = some (wg.sum / ((14 : Nat) : ℚ)) := by
    simp only [rollingMean]
    rw [hgw]
    rfl
  have hLdef : rollingMean 14 (losses closes) i = some (wl.sum / ((14 : Nat) : ℚ)) := by
    simp only [rollingMean]
    rw [hlw]
    rfl
  set g : ℚ := wg.sum / ((14 : Nat) : ℚ) with hgdef
  set l : ℚ := wl.sum / ((14 : Nat) : ℚ) with hldef
  have g0 : 0 ≤ g := by
    apply div_nonneg
    · exact List.sum_nonneg (fun x hxw => gains_nonneg closes x (rollingWindow_subset hgw x hxw))
    · exact Nat.cast_nonneg 14
  have l0 : 0 ≤ l := by
    apply div_nonneg
    · exact List.sum_nonneg (fun x hxw => losses_nonneg closes x (rollingWindow_subset hlw x hxw))
    · exact Nat.cast_nonneg 14
  have hLrep : lossReplaced closes i = some (if l = 0 then 1 / 1000000000 else l) := by
    simp only [lossReplaced]
    rw [hLdef]
    rfl
  set lr : ℚ := if l = 0 then 1 / 1000000000 else l with hlrdef
  have lrpos : 0 < lr := by
    rw [hlrdef]
    split_ifs with h0
    · norm_num
    · exact lt_of_le_of_ne l0 (Ne.symm h0)
  set rs : ℚ := g / lr with hrsdef
  have rs0 : 0 ≤ rs := div_nonneg g0 lrpos.le
  have h1rs : (0 : ℚ) < 1 + rs := by linarith
  set d : ℚ := 100 / (1 + rs) with hddef
  have dpos : 0 < d := div_pos (by norm_num) h1rs
  have dle : d ≤ 100 := by
    rw [hddef, div_le_iff₀ h1rs]
    have := mul_nonneg (show (0 : ℚ) ≤ 100 by norm_num) rs0
    linarith
  have hrsi : rsiAt closes i = some (100 - d) := by
    simp only [rsiAt, bind, Option.bind]
    rw [hGdef, hLrep]
    simp [safeDiv, ne_of_gt lrpos, ne_of_gt h1rs]
  refine ⟨100 - d, hrsi, by linarith, by linarith, ?_, ?_⟩
  · intro hmean0
    rw [hLdef] at hmean0
    have hl0 : l = 0 := by
      injection hmean0
    rw [hLrep, hlrdef, if_pos hl0]
  · intro w hw hnn
    have hlosses : rollingWindow 14 (losses closes) i =
        (rollingWindow 14 (deltaList closes) i).map (List.map (fun dd => posPart (-dd))) :=
      rollingWindow_map (fun dd => posPart (-dd)) 14 (deltaList closes) i
    rw [hw] at hlosses
    rw [hlw] at hlosses
    have hwl : wl = w.map (fun dd => posPart (-dd)) := by
      injection hlosses
    have hz : ∀ x ∈ wl, x = 0 := by
      intro x hx
      rw [hwl] at hx
      simp only [List.mem_map] at hx
      obtain ⟨dd, hdd, rfl⟩ := hx
      have : -dd ≤ 0 := neg_nonpos_of_nonneg (hnn dd hdd)
      simp [posPart, max_eq_right this]
    rw [hLdef]
    have : wl.sum = 0 := List.sum_eq_zero hz
    rw [hldef]
    rw [this]
    norm_num

/-- Witness for C4: a strictly rising 14-bar series at index 13; all
deltas are non-negative, so the epsilon path is exercised. -/
theorem rsi_in_range_w :
    RsiWellBehaved [1, 2, 3, 4, 5, 6, 7, 8, 9, 10, 11, 12, 13, 14] 13 :=
  rsi_in_range [1, 2, 3, 4, 5, 6, 7, 8, 9, 10, 11, 12, 13, 14] 13 (by decide) (by decide)

/-- C5: an empty or absent indicator frame yields exactly the one
placeholder signal; otherwise the signal list is the concatenation, in
the fixed category order Trend, Volatility, Momentum, Strength, of the
rules that have both compared values defined, and the Strength signal
always carries the RSI formatted to two decimals. -/
theorem interpret_fixed_order (df : Option (List TechRow)) :
    (df = none ∨ df = some [] → interpret_technical df = ["Technical data not available."]) ∧
    (∀ rows latest, df = some rows → rows.getLast? = some latest →
      interpret_technical df =
        (specTrendSignal latest).toList ++ (specVolatilitySignal latest).toList ++
          (specMomentumSignal latest).toList ++ (specStrengthSignal latest).toList ∧
      ∀ r, latest.rsi = some r →
        specStrengthSignal latest = some ("<b>Strength (RSI):</b> " ++
          (if r > 70 then "Overbought" else if r < 30 then "Oversold" else "Neutral") ++
          " at " ++ fmt2 r)) := by
  constructor
  · rintro (rfl | rfl) <;> rfl
  · rintro rows latest rfl hlast
    constructor
    · simp only [interpret_technical, hlast]
      rcases latest with ⟨c, s50, s200, bmid, bstd, bup, blow, e12, e26, ml, ms, mh, rs⟩
      cases s50 <;> cases s200 <;> cases bup <;> cases c <;> cases ml <;> cases ms <;>
        cases rs <;>
        simp [specTrendSignal, specVolatilitySignal, specMomentumSignal, specStrengthSignal]
    · intro r hr
      simp [specStrengthSignal, hr]

/-- Witness for C5 at the absent frame. -/
theorem interpret_fixed_order_w :
    interpret_technical none = ["Technical data not available."] :=
  (interpret_fixed_order none).1 (Or.inl rfl)

/-- C7 counterexample: with zero resolvable peers in an otherwise fully
well-formed request, no "not available" peer notice is rendered —
the build aborts with the line-177 `NameError` before the peer
section, so no report exists to carry the notice. -/
theorem peer_notice_never_rendered :
    get_peer_comparison (fun _ => none)
      ["ICICIBANK.NS", "SBIN.NS", "AXISBANK.NS", "KOTAKBANK.NS"] = [] ∧
    create_report "HDFCBANK.NS" (some goodTicker) [] (fun _ => none) [] true =
      Except.error (PyError.nameError "TA_RIGHT") := by
  exact ⟨rfl, rfl⟩

/-- C7 amended: the peer loop keeps exactly the successfully resolved
peers in input order (it is `filterMap` over the input list, with no
sorting), and zero resolvable peers give the empty table; the report
itself never reaches the peer section — every assembly aborts with the
line-177 `NameError` — and the unreached section code is what would
render the "not available" notice instead of an empty table shell. -/
theorem peer_rows_in_input_order (fetchPeer : String → Option YInfo) (peers : List String) :
    get_peer_comparison fetchPeer peers =
      peers.filterMap (fun p => (fetchPeer p).map (peerRowOf p)) ∧
    ((∀ p ∈ peers, fetchPeer p = none) → get_peer_comparison fetchPeer peers = []) ∧
    peerItems [] = [Item.para "Peer Comparison",
      Item.para "Peer comparison data could not be retrieved."] ∧
    (∀ (f : Fundamentals) (pdf : Option (List TechRow)) (news : List News)
      (peer_df : List PeerRow) (tech kh : List String) (recommendation : String)
      (chartOk : Bool),
      ReportPDF.create_pdf f pdf news peer_df tech recommendation kh chartOk =
        Except.error (PyError.nameError "TA_RIGHT")) := by
  have main : ∀ l : List String, get_peer_comparison fetchPeer l =
      l.filterMap (fun p => (fetchPeer p).map (peerRowOf p)) := by
    intro l
    induction l with
    | nil => rfl
    | cons p rest ih =>
      cases h : fetchPeer p <;>
        simp [get_peer_comparison, h, ih, List.filterMap_cons]
  refine ⟨main peers, ?_, rfl, fun _ _ _ _ _ _ _ _ => rfl⟩
  intro hall
  rw [main peers]
  rw [List.filterMap_eq_nil_iff]
  intro p hp
  rw [hall p hp]
  rfl

/-- Witness for C7: one peer whose lookup fails yields the empty
table. -/
theorem peer_rows_in_input_order_w :
    get_peer_comparison (fun _ => none) ["AAA.NS"] = [] :=
  (peer_rows_in_input_order (fun _ => none) ["AAA.NS"]).2.1 (fun _ _ => rfl)

/-- C8: no section ever renders a placeholder (or anything else) —
the assembler raises the line-177 `NameError` on every call, shown
here at a fundamentals record with every optional input missing.  The
remaining conjuncts evaluate the dead section code: the management and
chart placeholders it would render, and the latent hole that a
non-empty officer list whose only entry lacks the name key would
render neither officer entries nor the placeholder (the placeholder is
keyed on list emptiness). -/
theorem sections_never_render :
    ReportPDF.create_pdf sampleFund none [] [] ["Technical data not available."]
      "HOLD" [] true = Except.error (PyError.nameError "TA_RIGHT") ∧
    managementBody [] = [Item.para "Managerial data could not be retrieved."] ∧
    chartBody none ["Technical data not available."] true =
      [Item.para "<b>Could not generate charts due to a technical error.</b>"] ∧
    ([(⟨none, some "Chief Executive Officer"⟩ : Officer)] ≠ []) ∧
    managementBody [⟨none, some "Chief Executive Officer"⟩] = [] := by
  exact ⟨rfl, rfl, rfl, by simp, rfl⟩

/-- C2: the assembler raises for every input — at the claim's own
failing shape (an annual statement of two periods beside a non-empty
balance sheet) the build aborts with the line-177 `NameError` before
any table is reached, so the document never builds.  The second and
third conjuncts evaluate the dead table builders: even were line 177
fixed, the annual header would index `columns[2]` and the quarterly
header `columns[3]` and raise `IndexError` on statements shorter than
the displayed period count. -/
theorem annual_short_build_aborts :
    ReportPDF.create_pdf
      { sampleFund with
        financials := some ⟨["2024", "2023"], [("Total Revenue", [20000000, 10000000])]⟩
        balance_sheet := some ⟨["2024", "2023"], [("Total Assets", [50000000, 40000000])]⟩ }
      none [] [] ["Technical data not available."] "HOLD" [] true =
      Except.error (PyError.nameError "TA_RIGHT") ∧
    annualItems (some ⟨["2024", "2023"], [("Total Revenue", [20000000, 10000000])]⟩)
      (some ⟨["2024", "2023"], [("Total Assets", [50000000, 40000000])]⟩) =
      Except.error PyError.indexError ∧
    quarterlyItems (some ⟨["Jun 2025", "Mar 2025", "Dec 2024"],
      [("Total Revenue", [30000000, 20000000, 10000000])]⟩) =
      Except.error PyError.indexError := by
  refine ⟨rfl, ?_, ?_⟩ <;> with_unfolding_all rfl

/-- C6: an abort that is not DataUnavailable — at the claim's own
scenario input (complete fundamentals with market cap, three annual
and four quarterly periods, empty price history) `create_report`
raises the line-177 `NameError` and the route surfaces the opaque 500
message, not the retryable "source busy" one; no document is built.
The analysis stages that run before the crash do behave as the claim
describes: the Interpreter returns exactly the one placeholder signal
and the Scorer computes 3 from the fundamentals-derived points alone.
Only a genuine fundamentals failure produces the retryable 400. -/
theorem report_aborts_without_data_unavailable :
    create_report "TEST.NS" (some goodTicker) [] (fun _ => none) [] true =
      Except.error (PyError.nameError "TA_RIGHT") ∧
    generateRoute "TEST.NS" (some goodTicker) [] (fun _ => none) [] true =
      RouteResult.err 500 "An internal server error occurred. Please check the logs." ∧
    interpret_technical (compute_technical_indicators (fetch_price [])) =
      ["Technical data not available."] ∧
    recScore goodFund ["Technical data not available."] = 3 ∧
    generateRoute "TEST.NS" none [] (fun _ => none) [] true =
      RouteResult.err 400 ("The data source is currently busy or unavailable for TEST.NS. " ++
        "This can happen with free APIs. Please wait 30 seconds and try again.") := by
  refine ⟨rfl, ?_, rfl, ?_, ?_⟩ <;> with_unfolding_all rfl

lemma key_highlights_cons (fundamentals : Fundamentals) (tech : List String) :
    ∃ t, generate_key_highlights fundamentals tech =
      recBulletText (generate_recommendation fundamentals tech) :: t := by
  simp only [generate_key_highlights]
  cases fundamentals.trailingPE <;> cases fundamentals.roe <;>
    by_cases hb : tech.any (fun s => containsText "Bullish" s) <;>
    by_cases hr : tech.any (fun s => containsText "Bearish" s) <;>
    simp [hb, hr]

/-- C10: the first highlights bullet always names exactly the tier
`generate_recommendation` computes from the given fundamentals and
signal list — the same deterministic call the report flow makes on the
same two inputs — but the header that the claim says renders that tier
never exists: every build aborts with the line-177 `NameError` before
the header rows, shown at a fully well-formed input. -/
theorem highlight_bullet_scorer_agree :
    (∀ (fundamentals : Fundamentals) (tech : List String),
      (generate_key_highlights fundamentals tech).head? =
        some (recBulletText (generate_recommendation fundamentals tech))) ∧
    create_report "TEST.NS" (some goodTicker) [] (fun _ => none) [] true =
      Except.error (PyError.nameError "TA_RIGHT") := by
  refine ⟨?_, rfl⟩
  intro fundamentals tech
  obtain ⟨t, ht⟩ := key_highlights_cons fundamentals tech
  rw [ht]
  rfl

end EquityBot
